import Mathlib

/-!
Verification of the size-bracket arithmetic and free-page-run release
machinery of the RosAlloc runs-of-slots allocator
(runtime/gc/allocator/rosalloc.h), as a shallow embedding in Lean 4.

Machine integers (`size_t`) are embedded as `Nat`; where wraparound of
unsigned arithmetic matters (subtraction, addition near the top of the
range) it is made explicit with `% 2^64` (`size_t_mod`) or the explicit
wrapping subtraction `sub_size_t`.  The claims under study are unaffected
by the choice of a 64-bit `size_t` over a 32-bit one: all quantities
involved fit well below `2^32`, and the single underflow of interest
(`0 - 1` in `SizeToIndex`) yields a value `≥ kNumOfSizeBrackets` at
either width.
-/

namespace RosAlloc

/-- The modulus of `size_t` arithmetic (64-bit). -/
def size_t_mod : Nat := 2 ^ 64

/-- Wrapping `size_t` subtraction: `a - b` computed modulo `2^64`
(for `a b < size_t_mod`). -/
def sub_size_t (a b : Nat) : Nat := (a + size_t_mod - b) % size_t_mod

/-- Modelled from the spec: `kPageSize` from runtime/globals.h, which is
not under src/.  The spec speaks of a fixed `PageSize`; pages are the
standard 4 KiB. -/
def kPageSize : Nat := 4096

/-- Modelled from the spec: `RoundUp(x, n)` from runtime/utils.h, which is
not under src/.  The spec uses it as rounding up to the nearest multiple
of `n` (`n` a power of two dividing `2^64`); in `size_t` arithmetic it is
`(x + n - 1) & ~(n - 1)`, i.e. `((x + n - 1) mod 2^64) / n * n`. -/
def RoundUp (x n : Nat) : Nat := ((x + n - 1) % size_t_mod) / n * n

/-- The number of size brackets (rosalloc.h). -/
def kNumOfSizeBrackets : Nat := 34

/-- The number of smaller size brackets that are 16 bytes apart (rosalloc.h). -/
def kNumOfQuantumSizeBrackets : Nat := 32

/-- A memory allocation request larger than this size is treated as a large
object and allocated at a page granularity (rosalloc.h). -/
def kLargeSizeThreshold : Nat := 2048

/-- The magic number for free pages (rosalloc.h). -/
def kMagicNumFree : Nat := 43

/-- The default value for `page_release_size_threshold_` (rosalloc.h). -/
def kDefaultPageReleaseSizeThreshold : Nat := 4 * 1024 * 1024

/-- `RosAlloc::RoundToBracketSize`: rounds the size up to the nearest
bracket size (requires `size ≤ kLargeSizeThreshold`). -/
def RoundToBracketSize (size : Nat) : Nat :=
  if size ≤ 512 then
    RoundUp size 16
  else if 512 < size ∧ size ≤ 1024 then
    1024
  else
    2048

/-- `RosAlloc::SizeToIndex`: the size bracket index from the byte size with
rounding (requires `size ≤ kLargeSizeThreshold`).  The `- 1` of the first
branch is unsigned `size_t` subtraction. -/
def SizeToIndex (size : Nat) : Nat :=
  if size ≤ 512 then
    sub_size_t (RoundUp size 16 / 16) 1
  else if 512 < size ∧ size ≤ 1024 then
    kNumOfSizeBrackets - 2
  else
    kNumOfSizeBrackets - 1

/-- `RosAlloc::SizeToIndexAndBracketSize`: a combination of `SizeToIndex`
and `RoundToBracketSize`.  Returns the pair (index, bracket size); the
second component models the out-parameter `*bracket_size_out`. -/
def SizeToIndexAndBracketSize (size : Nat) : Nat × Nat :=
  if size ≤ 512 then
    let bracket_size := RoundUp size 16
    (sub_size_t (bracket_size / 16) 1, bracket_size)
  else if 512 < size ∧ size ≤ 1024 then
    (kNumOfSizeBrackets - 2, 1024)
  else
    (kNumOfSizeBrackets - 1, 2048)

/-- `RosAlloc::UsableSize(size_t bytes)`: the size of the allocated slot
for a given request size. -/
def UsableSize (bytes : Nat) : Nat :=
  if bytes > kLargeSizeThreshold then
    RoundUp bytes kPageSize
  else
    RoundToBracketSize bytes

/-- `RosAlloc::PageReleaseMode` (rosalloc.h): the different page release
modes. -/
inductive PageReleaseMode where
  | kPageReleaseModeNone
  | kPageReleaseModeEnd
  | kPageReleaseModeSize
  | kPageReleaseModeSizeAndEnd
  | kPageReleaseModeAll
deriving DecidableEq, Repr

/-- The state of a `RosAlloc` instance, restricted to the fields the
free-page-run operations under study read or write.  Addresses are `Nat`;
`memory` is the byte content of the managed region (present so that the
frame properties "the freed memory itself is not touched" are
expressible).  A `FreePageRun` is identified solely by its start
address. -/
structure RosAllocState where
  base_ : Nat
  footprint_ : Nat
  capacity_ : Nat
  page_release_mode_ : PageReleaseMode
  page_release_size_threshold_ : Nat
  free_page_run_size_map_ : Nat → Nat
  memory : Nat → Nat

/-- `RosAlloc::ToPageMapIndex`: the page map index from an address
(requires `base_ ≤ addr` and page alignment). -/
def ToPageMapIndex (ros : RosAllocState) (addr : Nat) : Nat :=
  (addr - ros.base_) / kPageSize

/-- `FreePageRun::ByteSize`: the byte size of the free page run starting at
address `fpr`, read from the side table `free_page_run_size_map_` at the
run's page map index. -/
def ByteSize (ros : RosAllocState) (fpr : Nat) : Nat :=
  ros.free_page_run_size_map_ (ToPageMapIndex ros fpr)

/-- `FreePageRun::SetByteSize`: stores `byte_size` into the side table
`free_page_run_size_map_` at the run's page map index. -/
def SetByteSize (ros : RosAllocState) (fpr : Nat) (byte_size : Nat) : RosAllocState :=
  { ros with
    free_page_run_size_map_ := fun j =>
      if j = ToPageMapIndex ros fpr then byte_size else ros.free_page_run_size_map_ j }

/-- `FreePageRun::End`: the end address of the free page run. -/
def FreePageRunEnd (ros : RosAllocState) (fpr : Nat) : Nat :=
  fpr + ByteSize ros fpr

/-- `FreePageRun::IsLargerThanPageReleaseThreshold`. -/
def IsLargerThanPageReleaseThreshold (ros : RosAllocState) (fpr : Nat) : Bool :=
  decide (ByteSize ros fpr ≥ ros.page_release_size_threshold_)

/-- `FreePageRun::IsAtEndOfSpace`: whether the run's end address equals
`base_ + footprint_`. -/
def IsAtEndOfSpace (ros : RosAllocState) (fpr : Nat) : Bool :=
  decide (fpr + ByteSize ros fpr = ros.base_ + ros.footprint_)

/-- `FreePageRun::ShouldReleasePages`: dispatch on `page_release_mode_`. -/
def ShouldReleasePages (ros : RosAllocState) (fpr : Nat) : Bool :=
  match ros.page_release_mode_ with
  | .kPageReleaseModeNone => false
  | .kPageReleaseModeEnd => IsAtEndOfSpace ros fpr
  | .kPageReleaseModeSize => IsLargerThanPageReleaseThreshold ros fpr
  | .kPageReleaseModeSizeAndEnd =>
      IsLargerThanPageReleaseThreshold ros fpr && IsAtEndOfSpace ros fpr
  | .kPageReleaseModeAll => true

/-- `FreePageRun::ReleasePages`: returns the `madvise(MADV_DONTNEED)` range
performed, as `some (start, byte_size)`, or `none` when no `madvise` call
is made.  `debug` is the compile-time constant `kIsDebugBuild`; in debug
builds the first page (which stores the magic number) is excluded before
the `byte_size > 0` test.  The `-= kPageSize` is unsigned `size_t`
subtraction (guarded in the source by `DCHECK_GE(byte_size, kPageSize)`). -/
def ReleasePages (debug : Bool) (ros : RosAllocState) (fpr : Nat) : Option (Nat × Nat) :=
  let start := fpr
  let byte_size := ByteSize ros fpr
  let release_pages := ShouldReleasePages ros fpr
  if debug then
    let start := start + kPageSize
    let byte_size := sub_size_t byte_size kPageSize
    if byte_size > 0 then
      if release_pages then some (start, byte_size) else none
    else
      none
  else
    if release_pages then some (start, byte_size) else none

/-- A concrete allocator state: page release mode All, a two-page free run
recorded in the side table, base address 0. -/
def exampleStateAll : RosAllocState :=
  { base_ := 0
    footprint_ := 8192
    capacity_ := 16384
    page_release_mode_ := PageReleaseMode.kPageReleaseModeAll
    page_release_size_threshold_ := kDefaultPageReleaseSizeThreshold
    free_page_run_size_map_ := fun _ => 8192
    memory := fun _ => 0 }

/-- A concrete allocator state: page release mode All, a one-page free run
recorded in the side table, base address 0. -/
def exampleStateOnePage : RosAllocState :=
  { base_ := 0
    footprint_ := 4096
    capacity_ := 16384
    page_release_mode_ := PageReleaseMode.kPageReleaseModeAll
    page_release_size_threshold_ := kDefaultPageReleaseSizeThreshold
    free_page_run_size_map_ := fun _ => 4096
    memory := fun _ => 0 }

theorem sub_size_t_eq_sub (a b : Nat) (hb : b ≤ a) (ha : a < size_t_mod) :
    sub_size_t a b = a - b := by
  unfold sub_size_t
  rw [show a + size_t_mod - b = a - b + size_t_mod from by omega, Nat.add_mod_right,
    Nat.mod_eq_of_lt (by omega)]

theorem size_t_mod_eq : size_t_mod = 18446744073709551616 := by decide

theorem roundUp_eq_of_small (x n : Nat) (h : x + n ≤ size_t_mod) :
    RoundUp x n = (x + n - 1) / n * n := by
  unfold RoundUp
  have hpos : (0 : Nat) < size_t_mod := by decide
  rw [Nat.mod_eq_of_lt (by omega)]

/-- C1: `ShouldReleasePages` decides the release policy exactly by the
mode: it returns true precisely when the mode is All, or the mode is End
and the run ends at `base_ + footprint_`, or the mode is Size and the
run's byte size is at least the threshold, or the mode is SizeAndEnd and
both conditions hold; in particular it returns false whenever the mode is
None. -/
theorem c1_should_release_pages_policy (ros : RosAllocState) (fpr : Nat) :
    ShouldReleasePages ros fpr = true ↔
      (ros.page_release_mode_ = PageReleaseMode.kPageReleaseModeAll
       ∨ (ros.page_release_mode_ = PageReleaseMode.kPageReleaseModeEnd ∧
            fpr + ByteSize ros fpr = ros.base_ + ros.footprint_)
       ∨ (ros.page_release_mode_ = PageReleaseMode.kPageReleaseModeSize ∧
            ros.page_release_size_threshold_ ≤ ByteSize ros fpr)
       ∨ (ros.page_release_mode_ = PageReleaseMode.kPageReleaseModeSizeAndEnd ∧
            ros.page_release_size_threshold_ ≤ ByteSize ros fpr ∧
            fpr + ByteSize ros fpr = ros.base_ + ros.footprint_)) := by
  cases h : ros.page_release_mode_ <;>
    simp [ShouldReleasePages, IsAtEndOfSpace, IsLargerThanPageReleaseThreshold, h,
      ge_iff_le, and_assoc]

/-- C2: `UsableSize(size)` returns `RoundUp(size, kPageSize)` when
`size > kLargeSizeThreshold` and `RoundToBracketSize(size)` otherwise; in
particular `UsableSize 10000 = 12288`, which is 10000 rounded up to the
next multiple of the page size. -/
theorem c2_usable_size_dispatch (size : Nat) :
    (kLargeSizeThreshold < size → UsableSize size = RoundUp size kPageSize) ∧
    (size ≤ kLargeSizeThreshold → UsableSize size = RoundToBracketSize size) ∧
    (UsableSize 10000 = 12288 ∧ kPageSize ∣ 12288 ∧ 10000 ≤ 12288 ∧
      12288 < 10000 + kPageSize) := by
  refine ⟨fun h => ?_, fun h => ?_, by decide⟩
  · unfold UsableSize
    rw [if_pos h]
  · unfold UsableSize
    rw [if_neg (by omega)]

/-- C2 witness: the theorem applied at the concrete sizes 10000 (large
path) and 100 (bracket path). -/
theorem c2_witness :
    UsableSize 10000 = RoundUp 10000 kPageSize ∧
    UsableSize 100 = RoundToBracketSize 100 ∧
    UsableSize 10000 = 12288 :=
  ⟨(c2_usable_size_dispatch 10000).1 (by decide),
   (c2_usable_size_dispatch 100).2.1 (by decide),
   (c2_usable_size_dispatch 10000).2.2.1⟩

/-- C3: `RoundToBracketSize` rounds a size in [1, 512] up to the next
multiple of 16 (characterized as the unique multiple of 16 in
[size, size+16)), maps (512, 1024] to 1024 and (1024, 2048] to 2048 —
the fixed bracket geometry of 32 quantum brackets plus the 1024- and
2048-byte brackets. -/
theorem c3_round_to_bracket_size_geometry (size : Nat) :
    (1 ≤ size → size ≤ 512 →
       16 ∣ RoundToBracketSize size ∧ size ≤ RoundToBracketSize size ∧
       RoundToBracketSize size < size + 16) ∧
    (512 < size → size ≤ 1024 → RoundToBracketSize size = 1024) ∧
    (1024 < size → size ≤ 2048 → RoundToBracketSize size = 2048) := by
  refine ⟨fun h1 h2 => ?_, fun h1 h2 => ?_, fun h1 h2 => ?_⟩
  · unfold RoundToBracketSize
    rw [if_pos h2, roundUp_eq_of_small size 16 (by rw [size_t_mod_eq]; omega)]
    refine ⟨⟨(size + 16 - 1) / 16, mul_comm _ _⟩, ?_, ?_⟩ <;> omega
  · unfold RoundToBracketSize
    rw [if_neg (by omega), if_pos ⟨h1, h2⟩]
  · unfold RoundToBracketSize
    rw [if_neg (by omega), if_neg (by omega)]

/-- C3 witness: the theorem applied at the concrete sizes 24, 600 and
1500, one per regime. -/
theorem c3_witness :
    (16 ∣ RoundToBracketSize 24 ∧ 24 ≤ RoundToBracketSize 24 ∧
      RoundToBracketSize 24 < 24 + 16) ∧
    RoundToBracketSize 600 = 1024 ∧ RoundToBracketSize 1500 = 2048 :=
  ⟨(c3_round_to_bracket_size_geometry 24).1 (by decide) (by decide),
   (c3_round_to_bracket_size_geometry 600).2.1 (by decide) (by decide),
   (c3_round_to_bracket_size_geometry 1500).2.2 (by decide) (by decide)⟩

/-- C4: whenever the rounding arithmetic does not overflow `size_t`, the
usable size is at least the requested size, on both the bracket branch
and the large page-rounding branch. -/
theorem c4_usable_size_ge_request (size : Nat) (h : size + kPageSize ≤ size_t_mod) :
    size ≤ UsableSize size := by
  rw [size_t_mod_eq] at h
  simp only [kPageSize] at h
  simp only [UsableSize, RoundToBracketSize, kLargeSizeThreshold, kPageSize]
  split_ifs with hbig hsmall hmid
  · rw [roundUp_eq_of_small size 4096 (by rw [size_t_mod_eq]; omega)]
    omega
  · rw [roundUp_eq_of_small size 16 (by rw [size_t_mod_eq]; omega)]
    omega
  · omega
  · omega

/-- C4 witness: the theorem applied at the concrete size 10000. -/
theorem c4_witness : 10000 + kPageSize ≤ size_t_mod ∧ 10000 ≤ UsableSize 10000 :=
  ⟨by decide, c4_usable_size_ge_request 10000 (by decide)⟩

/-- C5: in debug builds, when `ReleasePages` performs an
`madvise(MADV_DONTNEED)` call, the advised range starts one page after the
run's start address and its length is the run's byte size minus one page,
so the first page (which holds the magic byte) is never included.  The two
side conditions are the source's `DCHECK_GE(byte_size, kPageSize)` and the
`size_t` range of the side-table entry. -/
theorem c5_debug_release_excludes_first_page (ros : RosAllocState) (fpr p len : Nat)
    (hbs : kPageSize ≤ ByteSize ros fpr) (hlt : ByteSize ros fpr < size_t_mod)
    (h : ReleasePages true ros fpr = some (p, len)) :
    p = fpr + kPageSize ∧ len = ByteSize ros fpr - kPageSize ∧
    ShouldReleasePages ros fpr = true := by
  simp only [ReleasePages] at h
  rw [if_pos trivial] at h
  rw [sub_size_t_eq_sub (ByteSize ros fpr) kPageSize hbs hlt] at h
  by_cases hz : 0 < ByteSize ros fpr - kPageSize
  · rw [if_pos hz] at h
    by_cases hrel : ShouldReleasePages ros fpr = true
    · rw [if_pos hrel] at h
      have hpair := Option.some.inj h
      exact ⟨(congrArg Prod.fst hpair).symm, (congrArg Prod.snd hpair).symm, hrel⟩
    · rw [if_neg hrel] at h
      exact Option.noConfusion h
  · rw [if_neg hz] at h
    exact Option.noConfusion h

/-- C5 witness: the theorem applied to a concrete state with a two-page
free run under mode All, where the advised range is the second page
only. -/
theorem c5_witness :
    4096 = 0 + kPageSize ∧ 4096 = ByteSize exampleStateAll 0 - kPageSize ∧
    ShouldReleasePages exampleStateAll 0 = true :=
  c5_debug_release_excludes_first_page exampleStateAll 0 4096 4096
    (by decide) (by decide) (by decide)

/-- C6: the byte size of a free page run lives only in the side table:
`SetByteSize` followed by `ByteSize` returns the stored size; `SetByteSize`
writes only the `free_page_run_size_map_` entry at the run's page map
index, leaving every other entry, the memory contents and all other state
fields unchanged; and `ByteSize` depends only on the base address and that
single side-table entry, never on the memory contents. -/
theorem c6_byte_size_side_table (ros : RosAllocState) (fpr s : Nat)
    (hal : kPageSize ∣ s) :
    ByteSize (SetByteSize ros fpr s) fpr = s ∧
    (∀ j, j ≠ ToPageMapIndex ros fpr →
       (SetByteSize ros fpr s).free_page_run_size_map_ j =
         ros.free_page_run_size_map_ j) ∧
    (SetByteSize ros fpr s).memory = ros.memory ∧
    (SetByteSize ros fpr s).base_ = ros.base_ ∧
    (SetByteSize ros fpr s).footprint_ = ros.footprint_ ∧
    (SetByteSize ros fpr s).capacity_ = ros.capacity_ ∧
    (SetByteSize ros fpr s).page_release_mode_ = ros.page_release_mode_ ∧
    (SetByteSize ros fpr s).page_release_size_threshold_ =
      ros.page_release_size_threshold_ ∧
    (∀ ros' : RosAllocState, ros'.base_ = ros.base_ →
       ros'.free_page_run_size_map_ (ToPageMapIndex ros fpr) =
         ros.free_page_run_size_map_ (ToPageMapIndex ros fpr) →
       ByteSize ros' fpr = ByteSize ros fpr) := by
  refine ⟨?_, fun j hj => ?_, rfl, rfl, rfl, rfl, rfl, rfl, fun ros' hb hm => ?_⟩
  · simp [ByteSize, SetByteSize, ToPageMapIndex]
  · simp [SetByteSize, hj]
  · unfold ByteSize
    rw [show ToPageMapIndex ros' fpr = ToPageMapIndex ros fpr from by
      unfold ToPageMapIndex; rw [hb]]
    exact hm

/-- C6 witness: the theorem applied to a concrete state with a page-aligned
byte size of 8192. -/
theorem c6_witness :
    ByteSize (SetByteSize exampleStateAll 0 8192) 0 = 8192 ∧
    (SetByteSize exampleStateAll 0 8192).memory = exampleStateAll.memory :=
  ⟨(c6_byte_size_side_table exampleStateAll 0 8192 (by decide)).1,
   (c6_byte_size_side_table exampleStateAll 0 8192 (by decide)).2.2.1⟩

/-- C7: `SizeToIndexAndBracketSize(24)` returns bracket index 1 and stores
bracket size 32. -/
theorem c7_size24_bracket1_slot32 : SizeToIndexAndBracketSize 24 = (1, 32) := by
  decide

/-- C8: the fused classifier agrees with its two components on every size
in [1, kLargeSizeThreshold]: the returned index equals `SizeToIndex` and
the stored bracket size equals `RoundToBracketSize`. -/
theorem c8_fused_classifier_agrees (size : Nat) (h1 : 1 ≤ size)
    (h2 : size ≤ kLargeSizeThreshold) :
    (SizeToIndexAndBracketSize size).1 = SizeToIndex size ∧
    (SizeToIndexAndBracketSize size).2 = RoundToBracketSize size := by
  unfold SizeToIndexAndBracketSize SizeToIndex RoundToBracketSize
  split_ifs <;> simp

/-- C8 witness: the theorem applied at the concrete size 777. -/
theorem c8_witness :
    (SizeToIndexAndBracketSize 777).1 = SizeToIndex 777 ∧
    (SizeToIndexAndBracketSize 777).2 = RoundToBracketSize 777 :=
  c8_fused_classifier_agrees 777 (by decide) (by decide)

/-- C9: in debug builds a free page run of exactly one page is never
physically released: after excluding the first (magic-byte) page the
remaining byte size is zero, so `ReleasePages` performs no `madvise` call
in any state, hence under every page release mode. -/
theorem c9_one_page_run_never_released (ros : RosAllocState) (fpr : Nat)
    (h : ByteSize ros fpr = kPageSize) :
    ReleasePages true ros fpr = none := by
  simp only [ReleasePages]
  rw [if_pos trivial, h]
  have hz : sub_size_t kPageSize kPageSize = 0 := by decide
  rw [hz]
  simp

/-- C9 witness: the theorem applied to a concrete one-page free run under
mode All. -/
theorem c9_witness : ReleasePages true exampleStateOnePage 0 = none :=
  c9_one_page_run_never_released exampleStateOnePage 0 (by decide)

/-- C10: for every size in [1, kLargeSizeThreshold] the bracket index
returned by `SizeToIndex` is strictly below `kNumOfSizeBrackets`, whereas
at size 0 the unsigned computation `RoundUp(0,16)/16 - 1` wraps around and
is not a valid bracket index — so `size ≥ 1` is a necessary precondition. -/
theorem c10_size_to_index_needs_positive_size :
    (∀ size : Nat, 1 ≤ size → size ≤ kLargeSizeThreshold →
       SizeToIndex size < kNumOfSizeBrackets) ∧
    kNumOfSizeBrackets ≤ SizeToIndex 0 := by
  constructor
  · intro size h1 h2
    unfold SizeToIndex kNumOfSizeBrackets
    unfold kLargeSizeThreshold at h2
    split_ifs with ha hb
    · rw [roundUp_eq_of_small size 16 (by rw [size_t_mod_eq]; omega)]
      have hq1 : 1 ≤ (size + 16 - 1) / 16 := by omega
      have hq2 : (size + 16 - 1) / 16 ≤ 32 := by omega
      have hdiv : (size + 16 - 1) / 16 * 16 / 16 = (size + 16 - 1) / 16 :=
        Nat.mul_div_cancel _ (by omega)
      rw [hdiv, sub_size_t_eq_sub _ 1 hq1 (by rw [size_t_mod_eq]; omega)]
      omega
    · omega
    · omega
  · decide

/-- C10 witness: the theorem applied at the concrete size 16. -/
theorem c10_witness :
    SizeToIndex 16 < kNumOfSizeBrackets ∧ kNumOfSizeBrackets ≤ SizeToIndex 0 :=
  ⟨c10_size_to_index_needs_positive_size.1 16 (by decide) (by decide),
   c10_size_to_index_needs_positive_size.2⟩

end RosAlloc
